import Mathlib

/-!
Verification development for the multi-GPU model cache
(`invokeai/backend/model_manager/load/model_cache/`).

The Python source is embedded shallowly: the mutable `ModelCache` object
becomes an explicit `CacheState` record threaded through pure functions;
each operation returns its post-state together with the exception it
raises, if any (Python mutations performed before a `raise` persist, so
errors are returned alongside the mutated state rather than through
`Except` alone).  Machine integers are `Nat`/`Int`; Python `dict`s are
insertion-ordered association lists; Python `list`s are Lean lists.
-/

namespace InvokeAI

/-- Kinds of Python exceptions raised by the embedded code paths. -/
inductive PyError
  | indexError
  | valueError
  | keyError
  | outOfMemoryError
  deriving Repr, DecidableEq

abbrev Key := String

/-- A runtime model object.  Python objects are duck-typed, so one structure
covers both `torch.nn.Module` instances and arbitrary opaque models:
`has_to` embeds `hasattr(model, "to")`, `is_module` embeds
`isinstance(model, torch.nn.Module)`, `oid` is the object identity
(distinct `oid`s model distinct Python objects, as produced by
`copy.deepcopy`), `device` is where the object currently resides, and
`size` is the value reported for it by the external sizer
`calc_model_size_by_data` (an external collaborator, modelled as reading
this field). -/
structure MModel where
  oid : Nat
  cls : Nat
  config : Nat
  state_dict : List (String × Nat)
  size : Nat
  device : Nat
  has_to : Bool
  is_module : Bool
  deriving Repr, DecidableEq

/-- `ModelCacheRecord` dataclass of `model_cache_base.py`: a model defined
by an opaque in-CPU object. -/
structure ModelCacheRecord where
  key : Key
  size : Nat
  model : MModel
  deriving Repr, DecidableEq

/-- `ModelConfigCacheRecord` dataclass of `model_cache_base.py`: a model
defined by a configuration plus a state dict. -/
structure ModelConfigCacheRecord where
  key : Key
  size : Nat
  config : Nat
  state_dict : List (String × Nat)
  cls : Nat
  deriving Repr, DecidableEq

/-- `CacheRecord = Union[ModelConfigCacheRecord, ModelCacheRecord]`. -/
inductive CacheRecord
  | modelRec : ModelCacheRecord → CacheRecord
  | configRec : ModelConfigCacheRecord → CacheRecord
  deriving Repr, DecidableEq

/-- The `key` field shared by both record variants. -/
def CacheRecord.key : CacheRecord → Key
  | .modelRec r => r.key
  | .configRec r => r.key

/-- The `size` field shared by both record variants. -/
def CacheRecord.size : CacheRecord → Nat
  | .modelRec r => r.size
  | .configRec r => r.size

/-- The `CacheStats` dataclass. -/
structure CacheStats where
  hits : Nat := 0
  misses : Nat := 0
  high_watermark : Nat := 0
  in_cache : Nat := 0
  cleared : Nat := 0
  cache_size : Nat := 0
  loaded_model_sizes : List (String × Nat) := []
  deriving Repr, DecidableEq

/-- A freshly constructed `CacheStats()` (all counters zero). -/
def statsInit : CacheStats := {}

/-- The mutable state of a `ModelCache` that the entry-store operations
touch: `maxCacheBytes` is `max_cache_size * GIG` expressed directly in
bytes, `cached_models` is the `_cached_models` dict, `cache_stack` is the
`_cache_stack` recency list (least recently used at the head), `stats` is
the optional `_stats` block. -/
structure CacheState where
  maxCacheBytes : Nat
  cached_models : List (Key × CacheRecord)
  cache_stack : List Key
  stats : Option CacheStats
  deriving Repr, DecidableEq

/-- Lookup in an insertion-ordered association list (Python dict read). -/
def alookup {α : Type} : List (Key × α) → Key → Option α
  | [], _ => none
  | (k, v) :: rest, k2 => if k = k2 then some v else alookup rest k2

/-- Deletion from an association list (Python `del d[k]`, key present). -/
def aerase {α : Type} : List (Key × α) → Key → List (Key × α)
  | [], _ => []
  | (k, v) :: rest, k2 => if k = k2 then rest else (k, v) :: aerase rest k2

/-- Remove the first occurrence of a key if present, no-op otherwise
(Python `with suppress(Exception): lst.remove(k)`). -/
def removeFirst : List Key → Key → List Key
  | [], _ => []
  | x :: rest, k => if x = k then rest else x :: removeFirst rest k

/-- Python dict write `d[k] = v` on a string-keyed dict: update in place
when the key is present, append otherwise. -/
def dictSetStr (l : List (String × Nat)) (k : String) (v : Nat) :
    List (String × Nat) :=
  if l.any (fun p => p.1 = k) then
    l.map (fun p => if p.1 = k then (k, v) else p)
  else l ++ [(k, v)]

/-- External sizer contract `calc_model_size_by_data(model)`, modelled as
reporting the model's declared size. -/
def calc_model_size_by_data (m : MModel) : Nat := m.size

/-- `ModelCache._make_cache_key`.  The Python test `if submodel_type:` is
truthiness of an optional string-valued enum member: `None` and the empty
string are falsy. -/
def makeCacheKey (modelKey : Key) (submodelType : Option String) : Key :=
  match submodelType with
  | some t => if t = "" then modelKey else modelKey ++ ":" ++ t
  | none => modelKey

/-- `ModelCache.cache_size`: sum of `size` over all cached records. -/
def cacheSize (s : CacheState) : Nat :=
  (s.cached_models.map (fun kv => kv.2.size)).sum

/-- The `while` loop of `ModelCache.make_room`, iterating on
`(stack, models, current_size, models_cleared)`.  Each iteration pops the
head of the recency stack (`IndexError` when empty), reads the record
(`KeyError` when missing), and runs `_delete_cache_entry`, whose
`cache_stack.remove(entry.key)` raises `ValueError` when the key is no
longer in the (just popped) stack.  Mutations made before a raise persist
in the returned state. -/
def makeRoomLoop (stack : List Key) (models : List (Key × CacheRecord))
    (current bytesNeeded maximum : Int) (cleared : Nat) :
    List Key × List (Key × CacheRecord) × Nat × Option PyError :=
  if current + bytesNeeded > maximum then
    match stack with
    | [] => ([], models, cleared, some PyError.indexError)
    | k :: rest =>
      match alookup models k with
      | none => (rest, models, cleared, some PyError.keyError)
      | some entry =>
        if entry.key ∈ rest then
          makeRoomLoop (rest.erase entry.key) (aerase models entry.key)
            (current - (entry.size : Int)) bytesNeeded maximum (cleared + 1)
        else
          (rest, models, cleared, some PyError.valueError)
  else (stack, models, cleared, none)
termination_by stack.length
decreasing_by
  simp only [List.length_cons]
  exact Nat.lt_succ_of_le (List.erase_sublist _ _).length_le

/-- `ModelCache.make_room(size)`.  On normal exit, `stats.cleared` is
assigned (not incremented) whenever at least one model was cleared; when
the loop raises, the exception propagates before the stats line runs. -/
def makeRoom (s : CacheState) (size : Nat) : CacheState × Option PyError :=
  match makeRoomLoop s.cache_stack s.cached_models (cacheSize s : Int)
      (size : Int) (s.maxCacheBytes : Int) 0 with
  | (stack2, models2, _, some e) =>
    ({ s with cache_stack := stack2, cached_models := models2 }, some e)
  | (stack2, models2, cleared, none) =>
    let s2 := { s with cache_stack := stack2, cached_models := models2 }
    if cleared > 0 then
      ({ s2 with
          stats := s2.stats.map (fun st => { st with cleared := cleared }) },
        none)
    else (s2, none)

/-- `ModelCache.put(key, model, submodel_type)`. -/
def put (s : CacheState) (key : Key) (model : MModel)
    (submodelType : Option String) : CacheState × Option PyError :=
  let k := makeCacheKey key submodelType
  if (alookup s.cached_models k).isSome then (s, none)
  else
    let size := calc_model_size_by_data model
    match makeRoom s size with
    | (s2, some e) => (s2, some e)
    | (s2, none) =>
      let record : CacheRecord :=
        if model.is_module then
          .configRec ⟨k, size, model.config, model.state_dict, model.cls⟩
        else
          .modelRec ⟨k, size, model⟩
      ({ s2 with cached_models := s2.cached_models ++ [(k, record)],
                 cache_stack := s2.cache_stack ++ [k] }, none)

/-- `ModelCache.exists(key, submodel_type)`. -/
def existsInCache (s : CacheState) (key : Key)
    (submodelType : Option String) : Bool :=
  (alookup s.cached_models (makeCacheKey key submodelType)).isSome

/-- `ModelCache.get(key, submodel_type, stats_name)`.  Returns the
post-state together with either the cache record handed to the new
`ModelLocker` or the `IndexError` raised on a miss (the miss counter is
bumped before the raise). -/
def get (s : CacheState) (key : Key) (submodelType : Option String)
    (statsName : Option String) :
    CacheState × Except PyError CacheRecord :=
  let k := makeCacheKey key submodelType
  match alookup s.cached_models k with
  | none =>
    ({ s with
        stats := s.stats.map (fun st => { st with misses := st.misses + 1 }) },
      .error PyError.indexError)
  | some entry =>
    let nm := match statsName with
      | some n => if n = "" then k else n
      | none => k
    let s2 : CacheState := { s with
      stats := s.stats.map (fun st =>
        { st with
            hits := st.hits + 1,
            cache_size := s.maxCacheBytes,
            high_watermark := max st.high_watermark (cacheSize s),
            in_cache := s.cached_models.length,
            loaded_model_sizes := dictSetStr st.loaded_model_sizes nm
              (max ((alookup st.loaded_model_sizes nm).getD 0) entry.size) }) }
    ({ s2 with cache_stack := removeFirst s2.cache_stack k ++ [k] },
      .ok entry)

/-- The device-registry state of a `ModelCache`: `execution_devices` is
the `_execution_devices` dict mapping a device id to the owning thread id
(`0` means unowned, matching the source's initialization `{x: 0 ...}`),
`free_permits` is the current counter of the `_free_execution_device`
`BoundedSemaphore`, and `capacity` its initial value (the number of
devices). -/
structure DeviceState where
  execution_devices : List (Nat × Nat)
  free_permits : Nat
  capacity : Nat
  deriving Repr, DecidableEq

/-- The list comprehension
`[x for x, tid in self._execution_devices.items() if current_thread == tid]`. -/
def assignedDevices (s : DeviceState) (tid : Nat) : List Nat :=
  (s.execution_devices.filter (fun p => p.2 = tid)).map (fun p => p.1)

/-- The list comprehension selecting devices whose owner tid is `0`. -/
def freeDevices (s : DeviceState) : List Nat :=
  (s.execution_devices.filter (fun p => p.2 = 0)).map (fun p => p.1)

/-- Python dict write `d[k] = v` on a Nat-keyed dict. -/
def dictSetNat (l : List (Nat × Nat)) (k v : Nat) : List (Nat × Nat) :=
  if l.any (fun p => p.1 = k) then
    l.map (fun p => if p.1 = k then (k, v) else p)
  else l ++ [(k, v)]

/-- Entry of `ModelCache.reserve_execution_device` (the generator body up
to the `yield`), run by thread `tid`.  `permitAcquired` is the value
returned by `self._free_execution_device.acquire(timeout=timeout)`: `true`
when a permit was obtained within the timeout (the counter is then
decremented), `false` when the acquire timed out.  The source ignores this
return value and proceeds either way; `free_device[0]` on the empty list
of unowned devices raises `IndexError`. -/
def reserveExecutionDevice (s : DeviceState) (tid : Nat)
    (permitAcquired : Bool) : DeviceState × Except PyError Nat :=
  match assignedDevices s tid with
  | d :: _ => (s, .ok d)
  | [] =>
    let s1 : DeviceState :=
      if permitAcquired then { s with free_permits := s.free_permits - 1 }
      else s
    match freeDevices s1 with
    | [] => (s1, .error PyError.indexError)
    | d :: _ =>
      ({ s1 with execution_devices := dictSetNat s1.execution_devices d tid },
        .ok d)

/-- The `finally` block of `ModelCache.reserve_execution_device`: clear the
ownership entry for `device`, then `self._free_execution_device.release()`.
A `BoundedSemaphore` release raises `ValueError` when its counter is
already at the initial capacity; note the ownership write happens before
the release and therefore persists even when the release raises. -/
def releaseExecutionDevice (s : DeviceState) (device : Nat) :
    DeviceState × Option PyError :=
  let s1 : DeviceState :=
    { s with execution_devices := dictSetNat s.execution_devices device 0 }
  if s1.free_permits ≥ s1.capacity then (s1, some PyError.valueError)
  else ({ s1 with free_permits := s1.free_permits + 1 }, none)

/-- `ModelCache.get_execution_device`: the device assigned to thread
`tid`, or the `ValueError` raised when none is assigned. -/
def getExecutionDevice (s : DeviceState) (tid : Nat) : Except PyError Nat :=
  match assignedDevices s tid with
  | [] => .error PyError.valueError
  | d :: _ => .ok d

/-- Per-record lock header used by `ModelLocker`.  Modelled from the spec:
the `CacheRecord.lock()` / `CacheRecord.unlock()` methods and the
`active_locks` counter they maintain, and the `loaded` residency flag set
by `ModelLocker.lock`, are absent from the `CacheRecord` dataclasses in
the source (only their call sites in `model_locker.py` exist); the spec
defines them as an `active_locks ≥ 0` counter incremented by `lock`,
decremented by `unlock`, alongside the recorded residency. -/
structure RecordLockState where
  active_locks : Nat
  loaded : Bool
  deriving Repr, DecidableEq

/-- Modelled from the spec: `CacheRecord.lock()` increments
`active_locks`. -/
def lockRecord (e : RecordLockState) : RecordLockState :=
  { e with active_locks := e.active_locks + 1 }

/-- Modelled from the spec: `CacheRecord.unlock()` decrements
`active_locks`. -/
def unlockRecord (e : RecordLockState) : RecordLockState :=
  { e with active_locks := e.active_locks - 1 }

/-- `ModelLocker.lock()` run by thread `tid`: increment the record's lock
counter, resolve the caller's reserved device, materialize the model on it
(`materialize` gives the outcome of the `move_model_to_device` call for
each device — a parameter because its failure modes depend on the device
runtime), mark the record loaded, and return `self.model` (the host-side
object `hostModel`).  Both `except` arms unlock the record and re-raise. -/
def lockerLock (entry : RecordLockState) (ds : DeviceState) (tid : Nat)
    (materialize : Nat → Except PyError MModel) (hostModel : MModel) :
    RecordLockState × Except PyError MModel :=
  let e1 := lockRecord entry
  match getExecutionDevice ds tid with
  | .error err => (unlockRecord e1, .error err)
  | .ok device =>
    match materialize device with
    | .error err => (unlockRecord e1, .error err)
    | .ok _ => ({ e1 with loaded := true }, .ok hostModel)

/-- `ModelCache.model_to_device(cache_entry, target_device)`.  For a
`ModelCacheRecord`, when the model has a `to` capability the source deep
copies it (`freshOid` is the identity of the new object) and moves the
copy; otherwise it returns the stored reference unchanged.  For a
`ModelConfigCacheRecord`, the external factory builds an empty shell from
`(cls, config)`, the shell is moved to the target device and the stored
state dict is injected. -/
def modelToDevice (entry : CacheRecord) (target : Nat) (freshOid : Nat)
    (factory : Nat → Nat → MModel) : MModel :=
  match entry with
  | .modelRec r =>
    if r.model.has_to then
      { r.model with oid := freshOid, device := target }
    else r.model
  | .configRec r =>
    let shell := factory r.cls r.config
    { shell with device := target, state_dict := r.state_dict }

/-- Structural equality of two model objects ignoring object identity and
current device: what `copy.deepcopy` preserves. -/
def sameStructure (a b : MModel) : Bool :=
  a.cls = b.cls && a.config = b.config && a.state_dict = b.state_dict &&
    a.size = b.size && a.has_to = b.has_to && a.is_module = b.is_module

/-- A plain opaque (non-module) model with a `to` capability, host
resident, of the given identity and size. -/
def mdl (oid size : Nat) : MModel :=
  { oid := oid, cls := 0, config := 0, state_dict := [], size := size,
    device := 0, has_to := true, is_module := false }

/-- Scenario 1 start state: byte budget 100, empty store, stats attached. -/
def s100 : CacheState :=
  { maxCacheBytes := 100, cached_models := [], cache_stack := [],
    stats := some statsInit }

/-- Scenario 1 state after `put A(40)`. -/
def s100A : CacheState := (put s100 "A" (mdl 1 40) none).1

/-- Scenario 1 state after `put A(40); put B(40)`. -/
def s100AB : CacheState := (put s100A "B" (mdl 2 40) none).1

/-- A 60-byte opaque record under key `A`. -/
def recA60 : CacheRecord := .modelRec ⟨"A", 60, mdl 1 60⟩

/-- A 40-byte opaque record under key `B`. -/
def recB40 : CacheRecord := .modelRec ⟨"B", 40, mdl 2 40⟩

/-- Over-budget store holding `A` (60 bytes, head of the recency list)
and `B` (40 bytes): the state for the locked-eviction scenario. -/
def lockedEvictionState : CacheState :=
  { maxCacheBytes := 100, cached_models := [("A", recA60), ("B", recB40)],
    cache_stack := ["A", "B"], stats := none }

/-- Lock annotation for `lockedEvictionState`, modelled from the spec
(the source records carry no lock counter): `A` is locked by one active
caller, `B` is unlocked. -/
def lockedEvictionLocks : List (Key × Nat) := [("A", 1), ("B", 0)]

/-- Looking up a key in an association list that ends with a pair carrying
that key always succeeds. -/
theorem alookup_append_self {α : Type} (l : List (Key × α)) (k : Key) (v : α) :
    (alookup (l ++ [(k, v)]) k).isSome = true := by
  induction l with
  | nil => simp [alookup]
  | cons p t ih =>
    obtain ⟨a, b⟩ := p
    by_cases hak : a = k
    · simp [alookup, hak]
    · simpa [alookup, hak] using ih

/-- Evaluation of the scenario state after `put A(40)`. -/
theorem s100A_eq :
    s100A = { maxCacheBytes := 100,
              cached_models := [("A", .modelRec ⟨"A", 40, mdl 1 40⟩)],
              cache_stack := ["A"], stats := some statsInit } := by
  simp +decide [s100A, s100, put, makeRoom, makeRoomLoop, makeCacheKey, alookup,
    cacheSize, calc_model_size_by_data, mdl, CacheRecord.size, CacheRecord.key]

/-- Evaluation of the scenario state after `put A(40); put B(40)`. -/
theorem s100AB_eq :
    s100AB = { maxCacheBytes := 100,
               cached_models := [("A", .modelRec ⟨"A", 40, mdl 1 40⟩),
                                 ("B", .modelRec ⟨"B", 40, mdl 2 40⟩)],
               cache_stack := ["A", "B"], stats := some statsInit } := by
  simp +decide [s100AB, s100A_eq, put, makeRoom, makeRoomLoop, makeCacheKey,
    alookup, cacheSize, calc_model_size_by_data, mdl, CacheRecord.size,
    CacheRecord.key]

/-- C1: with byte budget 100, `put A(40)` and `put B(40)` succeed, but
`put C(40)` does not evict `A` and complete as the claim states: the
eviction loop of `make_room` pops `A` off the recency list and then
`_delete_cache_entry` calls `cache_stack.remove("A")` on the already
popped list, raising `ValueError`.  The put fails, the store still holds
`{A, B}`, the recency list is left desynchronized as `["B"]`, and the
`cleared` eviction counter is never written. -/
theorem put_lru_eviction_scenario_crashes :
    (put s100 "A" (mdl 1 40) none).2 = none ∧
    (put s100A "B" (mdl 2 40) none).2 = none ∧
    (put s100AB "C" (mdl 3 40) none).2 = some PyError.valueError ∧
    (put s100AB "C" (mdl 3 40) none).1.cached_models.map Prod.fst =
      ["A", "B"] ∧
    (put s100AB "C" (mdl 3 40) none).1.cache_stack = ["B"] ∧
    (put s100AB "C" (mdl 3 40) none).1.stats = some statsInit := by
  refine ⟨?_, ?_, ?_, ?_, ?_, ?_⟩ <;>
    simp +decide [s100AB_eq, s100A_eq, s100, put, makeRoom, makeRoomLoop,
      makeCacheKey, alookup, aerase, cacheSize, calc_model_size_by_data, mdl,
      CacheRecord.size, CacheRecord.key]

/-- C2: `make_room` does not skip locked records.  In a store holding
`A` (60 bytes, `active_locks = 1`, head of the recency list) and `B`
(40 bytes, unlocked) against a 100-byte budget, `make_room(40)` pops the
locked head `A` — the eviction candidate the claim says must be skipped —
and then raises `ValueError` inside `_delete_cache_entry`; the unlocked
candidate `B` is never evicted and `A`'s key is lost from the recency
list while its record stays in the store. -/
theorem make_room_pops_locked_head_and_crashes :
    alookup lockedEvictionLocks "A" = some 1 ∧
    (makeRoom lockedEvictionState 40).2 = some PyError.valueError ∧
    alookup (makeRoom lockedEvictionState 40).1.cached_models "A" =
      some recA60 ∧
    alookup (makeRoom lockedEvictionState 40).1.cached_models "B" =
      some recB40 ∧
    (makeRoom lockedEvictionState 40).1.cache_stack = ["B"] := by
  refine ⟨by simp [lockedEvictionLocks, alookup], ?_, ?_, ?_, ?_⟩ <;>
    simp +decide [lockedEvictionState, makeRoom, makeRoomLoop, alookup, aerase,
      cacheSize, recA60, recB40, CacheRecord.size, CacheRecord.key, mdl]

/-- C3: when every execution device is owned by some other thread and the
semaphore acquire times out (`permitAcquired = false`, i.e. no device was
released within the timeout), `reserve_execution_device` fails — the
`NoDevice` failure of the spec, concretely the `IndexError` raised by
`free_device[0]` on the empty free list — and the device table is
unchanged: no ownership is assigned to the caller. -/
theorem reserve_times_out_when_all_devices_owned (s : DeviceState) (tid : Nat)
    (h : ∀ p ∈ s.execution_devices, p.2 ≠ 0 ∧ p.2 ≠ tid) :
    reserveExecutionDevice s tid false = (s, .error PyError.indexError) := by
  have h1 : assignedDevices s tid = [] := by
    unfold assignedDevices
    rw [List.filter_eq_nil_iff.mpr]
    · rfl
    · intro p hp
      simpa using (h p hp).2
  have h2 : freeDevices s = [] := by
    unfold freeDevices
    rw [List.filter_eq_nil_iff.mpr]
    · rfl
    · intro p hp
      simpa using (h p hp).1
  simp [reserveExecutionDevice, h1, h2]

/-- Witness for C3: two devices owned by threads 5 and 6; thread 7's
timed-out reservation fails and assigns nothing. -/
theorem reserve_times_out_when_all_devices_owned_witness :
    reserveExecutionDevice ⟨[(0, 5), (1, 6)], 0, 2⟩ 7 false =
      (⟨[(0, 5), (1, 6)], 0, 2⟩, .error PyError.indexError) :=
  reserve_times_out_when_all_devices_owned ⟨[(0, 5), (1, 6)], 0, 2⟩ 7
    (by decide)

/-- C4: if resolving the reserved device or materializing the model fails
during `ModelLocker.lock()` — any exception, out-of-device-memory
included — the record's lock counter is decremented back to its pre-lock
value, the `loaded` residency flag is left unset, and the error propagates
to the caller: the post-state is exactly the pre-lock record paired with
the error. -/
theorem lock_failure_rolls_back (entry : RecordLockState) (ds : DeviceState)
    (tid : Nat) (materialize : Nat → Except PyError MModel)
    (hostModel : MModel) (err : PyError)
    (h : getExecutionDevice ds tid = .error err ∨
         ∃ d, getExecutionDevice ds tid = .ok d ∧ materialize d = .error err) :
    lockerLock entry ds tid materialize hostModel = (entry, .error err) := by
  have he : unlockRecord (lockRecord entry) = entry := by
    obtain ⟨a, l⟩ := entry
    simp [lockRecord, unlockRecord]
  rcases h with h | ⟨d, h1, h2⟩
  · simp [lockerLock, h, he]
  · simp [lockerLock, h1, h2, he]

/-- Witness for C4: thread 7 holds no device, so `lock` fails with the
`ValueError` of `get_execution_device` and the record is unchanged. -/
theorem lock_failure_rolls_back_witness :
    lockerLock ⟨0, false⟩ ⟨[(0, 5)], 0, 1⟩ 7 (fun _ => .ok (mdl 0 0))
      (mdl 0 0) = (⟨0, false⟩, .error PyError.valueError) :=
  lock_failure_rolls_back ⟨0, false⟩ ⟨[(0, 5)], 0, 1⟩ 7
    (fun _ => .ok (mdl 0 0)) (mdl 0 0) PyError.valueError (Or.inl rfl)

/-- C5: a nested `reserve_execution_device` by a thread that already owns
a device returns that same device and leaves the whole registry state —
semaphore counter included — untouched, for either outcome of the (never
consulted) permit acquisition. -/
theorem reserve_reentrant_same_device_no_permit (s : DeviceState)
    (tid d : Nat) (b : Bool) (h : assignedDevices s tid = [d]) :
    reserveExecutionDevice s tid b = (s, .ok d) := by
  simp [reserveExecutionDevice, h]

/-- Witness for C5: thread 7 owns device 1; a nested reservation returns
device 1 and the permit counter stays at 1. -/
theorem reserve_reentrant_same_device_no_permit_witness :
    reserveExecutionDevice ⟨[(0, 5), (1, 7)], 1, 2⟩ 7 true =
      (⟨[(0, 5), (1, 7)], 1, 2⟩, .ok 1) :=
  reserve_reentrant_same_device_no_permit ⟨[(0, 5), (1, 7)], 1, 2⟩ 7 1 true
    (by decide)

/-- Counterexample to C6: releasing the already-unowned device 0 is not a
no-op — the `finally` block signals the semaphore unconditionally, so the
permit counter climbs from 1 to 2. -/
theorem release_unowned_not_noop_counterexample :
    releaseExecutionDevice ⟨[(0, 0), (1, 7)], 1, 2⟩ 0 ≠
      (⟨[(0, 0), (1, 7)], 1, 2⟩, none) := by decide

/-- C6 as amended: releasing a device clears its ownership entry and then
signals one semaphore permit unconditionally — release is not idempotent.
When the bounded semaphore is below capacity the permit counter is
incremented even if the device was already unowned; when it is at
capacity the release raises `ValueError` (with the ownership entry
already cleared). -/
theorem release_clears_and_signals_unconditionally (s : DeviceState)
    (d : Nat) :
    (s.free_permits < s.capacity →
      releaseExecutionDevice s d =
        ({ execution_devices := dictSetNat s.execution_devices d 0,
           free_permits := s.free_permits + 1, capacity := s.capacity },
          none))
  ∧ (s.free_permits ≥ s.capacity →
      releaseExecutionDevice s d =
        ({ execution_devices := dictSetNat s.execution_devices d 0,
           free_permits := s.free_permits, capacity := s.capacity },
          some PyError.valueError)) := by
  constructor <;> intro h
  · rw [releaseExecutionDevice, if_neg (by simpa using Nat.not_le.mpr h)]
  · rw [releaseExecutionDevice, if_pos (by simpa using h)]

/-- Witness for C6 as amended: releasing unowned device 0 below capacity
signals an extra permit; at capacity it raises `ValueError`. -/
theorem release_clears_and_signals_unconditionally_witness :
    releaseExecutionDevice ⟨[(0, 0), (1, 7)], 1, 2⟩ 0 =
      (⟨[(0, 0), (1, 7)], 2, 2⟩, none) ∧
    releaseExecutionDevice ⟨[(0, 0), (1, 0)], 2, 2⟩ 0 =
      (⟨[(0, 0), (1, 0)], 2, 2⟩, some PyError.valueError) := by
  constructor
  · have := (release_clears_and_signals_unconditionally
      ⟨[(0, 0), (1, 7)], 1, 2⟩ 0).1 (by decide)
    simpa [dictSetNat] using this
  · have := (release_clears_and_signals_unconditionally
      ⟨[(0, 0), (1, 0)], 2, 2⟩ 0).2 (by decide)
    simpa [dictSetNat] using this

/-- C7: a `put` that returns normally leaves the key present (`exists` is
true afterwards), and a second `put` under an already-present canonical
key returns the state completely unchanged — same stored record, no
eviction, same recency list. -/
theorem put_exists_and_idempotent (s : CacheState) (k : Key) (m m2 : MModel)
    (sub : Option String) :
    ((put s k m sub).2 = none → existsInCache (put s k m sub).1 k sub = true)
  ∧ ((alookup s.cached_models (makeCacheKey k sub)).isSome = true →
      put s k m2 sub = (s, none)) := by
  constructor
  · intro hok
    by_cases hpres : (alookup s.cached_models (makeCacheKey k sub)).isSome =
      true
    · simp [put, existsInCache, hpres]
    · rcases hmr : makeRoom s (calc_model_size_by_data m) with ⟨s2, e⟩
      cases e with
      | some err =>
        rw [put, if_neg hpres] at hok
        simp [hmr] at hok
      | none =>
        rw [put, if_neg hpres]
        simp [hmr, existsInCache, alookup_append_self]
  · intro hpres
    simp [put, hpres]

/-- Witness for C7: `put A(40)` into the empty budget-100 cache makes
`exists A` true, and a repeated `put A` with a different model is a
no-op. -/
theorem put_exists_and_idempotent_witness :
    existsInCache (put s100 "A" (mdl 1 40) none).1 "A" none = true ∧
    put s100A "A" (mdl 9 77) none = (s100A, none) := by
  constructor
  · exact (put_exists_and_idempotent s100 "A" (mdl 1 40) (mdl 1 40) none).1
      (by simp [s100, put, makeRoom, makeRoomLoop, makeCacheKey, alookup,
        cacheSize, calc_model_size_by_data, mdl])
  · exact (put_exists_and_idempotent s100A "A" (mdl 9 77) (mdl 9 77) none).2
      (by rw [s100A_eq]; decide)

/-- C8: `get` on a key absent from the store raises the not-found failure
(`IndexError`) and the post-state differs from the pre-state only in
`stats.misses`, which is incremented by exactly one when a stats block is
attached (the `Option.map` is the identity when none is); the store, the
recency list and every other counter are untouched. -/
theorem get_miss_raises_and_counts (s : CacheState) (key : Key)
    (sub sn : Option String)
    (h : alookup s.cached_models (makeCacheKey key sub) = none) :
    get s key sub sn =
      ({ s with
          stats := s.stats.map (fun st => { st with misses := st.misses + 1 }) },
        .error PyError.indexError) := by
  simp [get, h]

/-- Witness for C8: `get Z` on the `{A, B}` store fails and bumps only the
miss counter. -/
theorem get_miss_raises_and_counts_witness :
    get s100AB "Z" none none =
      ({ s100AB with stats := some { statsInit with misses := 1 } },
        .error PyError.indexError) := by
  have := get_miss_raises_and_counts s100AB "Z" none none
    (by rw [s100AB_eq]; decide)
  simpa [s100AB_eq] using this

/-- C9: materializing an opaque (`ModelCacheRecord`) entry on a target
device returns, when the model exposes the move capability, a deep
structural copy — a distinct object identity with identical structure —
moved to the target device; when it does not, the original stored
reference is returned unmoved.  The embedding is pure, so the record's
host-resident model is untouched in both cases, and in the second the
very same object is handed back. -/
theorem model_to_device_opaque_copy_or_reference (r : ModelCacheRecord)
    (target freshOid : Nat) (factory : Nat → Nat → MModel)
    (hfresh : freshOid ≠ r.model.oid) :
    (r.model.has_to = true →
      (modelToDevice (.modelRec r) target freshOid factory).device = target ∧
      (modelToDevice (.modelRec r) target freshOid factory).oid ≠
        r.model.oid ∧
      sameStructure (modelToDevice (.modelRec r) target freshOid factory)
        r.model = true)
  ∧ (r.model.has_to = false →
      modelToDevice (.modelRec r) target freshOid factory = r.model) := by
  constructor <;> intro h <;>
    simp [modelToDevice, h, sameStructure, hfresh]

/-- Witness for C9: a movable model is deep-copied (fresh identity 5) onto
device 3 with its structure intact; a host-only model comes back as the
original reference. -/
theorem model_to_device_opaque_copy_or_reference_witness :
    (modelToDevice (.modelRec ⟨"A", 40, mdl 1 40⟩) 3 5
      (fun _ _ => mdl 0 0)).device = 3 ∧
    (modelToDevice (.modelRec ⟨"A", 40, mdl 1 40⟩) 3 5
      (fun _ _ => mdl 0 0)).oid ≠ 1 ∧
    sameStructure (modelToDevice (.modelRec ⟨"A", 40, mdl 1 40⟩) 3 5
      (fun _ _ => mdl 0 0)) (mdl 1 40) = true ∧
    modelToDevice (.modelRec ⟨"A", 40, { mdl 1 40 with has_to := false }⟩) 3 5
      (fun _ _ => mdl 0 0) = { mdl 1 40 with has_to := false } := by
  have h1 := (model_to_device_opaque_copy_or_reference ⟨"A", 40, mdl 1 40⟩ 3 5
    (fun _ _ => mdl 0 0) (by decide)).1 rfl
  have h2 := (model_to_device_opaque_copy_or_reference
    ⟨"A", 40, { mdl 1 40 with has_to := false }⟩ 3 5
    (fun _ _ => mdl 0 0) (by decide)).2 rfl
  exact ⟨h1.1, h1.2.1, h1.2.2, h2⟩

/-- Counterexample to C10: the collision is not universal over all string
pairs — with the empty submodel tag, the Python truthiness test
`if submodel_type:` takes the no-tag branch, so bare key `"x:"` and key
`"x"` with tag `""` canonicalize differently. -/
theorem make_cache_key_empty_tag_counterexample :
    makeCacheKey ("x" ++ ":" ++ "") none ≠ makeCacheKey "x" (some "") := by
  decide

/-- C10 as amended: for every model key `a` and every nonempty submodel
tag `b`, the bare key `a:b` without a tag and the key `a` with tag `b`
canonicalize to the same cache key, so `put`, `get` and `exists` address
one and the same record — witnessed here through the membership test. -/
theorem make_cache_key_collision_nonempty_tag (a b : String) (hb : b ≠ "")
    (s : CacheState) :
    makeCacheKey (a ++ ":" ++ b) none = makeCacheKey a (some b)
  ∧ existsInCache s (a ++ ":" ++ b) none = existsInCache s a (some b) := by
  have h1 : makeCacheKey (a ++ ":" ++ b) none = makeCacheKey a (some b) := by
    simp [makeCacheKey, hb]
  exact ⟨h1, by simp [existsInCache, h1]⟩

/-- Witness for C10 as amended, at key `m` and tag `unet`. -/
theorem make_cache_key_collision_nonempty_tag_witness :
    makeCacheKey ("m" ++ ":" ++ "unet") none = makeCacheKey "m" (some "unet")
  ∧ existsInCache s100 ("m" ++ ":" ++ "unet") none =
      existsInCache s100 "m" (some "unet") :=
  make_cache_key_collision_nonempty_tag "m" "unet" (by decide) s100

end InvokeAI
